import Mathlib

/-!
Shallow embedding of the node-google-spreadsheet client library
(`GoogleSpreadsheet.ts` and `GoogleSpreadsheetRow.ts`), covering the
document cache, the credential resolver, the transport error
interceptor, export target validation, cell loading filters,
permissions, and the row view.  Remote calls are modelled by making
the server response an explicit input and collecting the requests an
operation would issue as explicit output values.
-/

namespace GS

/-- Spreadsheet-level properties (`SpreadsheetProperties`).  The
individual property payloads are opaque to the client, so each is
modelled as a string. -/
structure SpreadsheetProperties where
  title : String
  locale : String
  timeZone : String
  autoRecalc : String
  defaultFormat : String
  spreadsheetTheme : String
  iterativeCalculationSettings : String
  deriving DecidableEq

/-- Keys of `SpreadsheetProperties`, as used by `_getProp` / `_setProp`. -/
inductive DocPropKey where
  | title | locale | timeZone | autoRecalc
  | defaultFormat | spreadsheetTheme | iterativeCalculationSettings
  deriving DecidableEq

def propField (p : SpreadsheetProperties) : DocPropKey → String
  | .title => p.title
  | .locale => p.locale
  | .timeZone => p.timeZone
  | .autoRecalc => p.autoRecalc
  | .defaultFormat => p.defaultFormat
  | .spreadsheetTheme => p.spreadsheetTheme
  | .iterativeCalculationSettings => p.iterativeCalculationSettings

def propKeyName : DocPropKey → String
  | .title => "title"
  | .locale => "locale"
  | .timeZone => "timeZone"
  | .autoRecalc => "autoRecalc"
  | .defaultFormat => "defaultFormat"
  | .spreadsheetTheme => "spreadsheetTheme"
  | .iterativeCalculationSettings => "iterativeCalculationSettings"

/-- Worksheet-level properties (`WorksheetProperties`), reduced to the
fields the claims touch; `sheetId` is the stable key of the worksheet
map. -/
structure WorksheetProperties where
  sheetId : Nat
  title : String
  index : Nat
  deriving DecidableEq

/-- Echoed grid data for one worksheet: cell values keyed by
(row, column) coordinate. -/
abbrev CellData := List ((Nat × Nat) × String)

def dataKeys (d : CellData) : List (Nat × Nat) := d.map Prod.fst

/-- Modelled from the spec: `GoogleSpreadsheetWorksheet.updateRawData` /
`_fillCellData` are not under src (only their caller
`_updateOrCreateSheet` is).  Per the spec, echoed grid data is merged
into the existing cell cache: every echoed coordinate replaces the
cached entry at that coordinate, all other cached entries are kept. -/
def mergeData (old new : CellData) : CellData :=
  old.filter (fun kv => decide (kv.1 ∉ dataKeys new)) ++ new

/-- Cached worksheet object.  `identity` tags the JS object identity:
it is assigned once at construction (`new GoogleSpreadsheetWorksheet`)
and never changes, so an upsert that merges keeps it while a
replacement would mint a fresh one. -/
structure Worksheet where
  identity : Nat
  rawProperties : WorksheetProperties
  cellData : CellData
  deriving DecidableEq

/-- One entry of `updatedSpreadsheet.sheets` in a server echo:
`{ properties, data }` as destructured by `_updateOrCreateSheet`. -/
structure SheetInfo where
  properties : WorksheetProperties
  data : CellData
  deriving DecidableEq

/-- The echoed spreadsheet state of a mutation response
(`response.data.updatedSpreadsheet`). -/
structure EchoedSpreadsheet where
  properties : SpreadsheetProperties
  sheets : List SheetInfo
  deriving DecidableEq

/-- The document cache state of a `GoogleSpreadsheet` instance:
`_spreadsheetUrl`, `_rawProperties`, `_rawSheets` (an insertion-ordered
map from sheetId, as a JS object), and the counter minting object
identities for newly constructed worksheets. -/
structure DocState where
  spreadsheetUrl : Option String
  rawProperties : Option SpreadsheetProperties
  rawSheets : List (Nat × Worksheet)
  nextIdentity : Nat
  deriving DecidableEq

/-- `_rawSheets[sheetId]` lookup. -/
def lookupW (k : Nat) : List (Nat × Worksheet) → Option Worksheet
  | [] => none
  | (k2, w) :: t => if k2 = k then some w else lookupW k t

/-- In-place overwrite of the entry at key `k` (JS property assignment
on an existing key keeps the key order). -/
def setW (k : Nat) (v : Worksheet) : List (Nat × Worksheet) → List (Nat × Worksheet)
  | [] => []
  | (k2, w) :: t => if k2 = k then (k2, v) :: t else (k2, w) :: setW k v t

/-- `GoogleSpreadsheet._updateOrCreateSheet`: if the echoed sheetId is
unknown, construct a new worksheet object (fresh identity, cell cache
filled from the echoed data); otherwise merge the echoed properties and
data into the existing worksheet object. -/
def updateOrCreateSheet (s : DocState) (info : SheetInfo) : DocState :=
  match lookupW info.properties.sheetId s.rawSheets with
  | none =>
      { s with
        rawSheets := s.rawSheets ++
          [(info.properties.sheetId,
            ⟨s.nextIdentity, info.properties, mergeData [] info.data⟩)],
        nextIdentity := s.nextIdentity + 1 }
  | some w =>
      { s with
        rawSheets := setW info.properties.sheetId
          ⟨w.identity, info.properties, mergeData w.cellData info.data⟩
          s.rawSheets }

def echoSheetIds (l : List SheetInfo) : List Nat :=
  l.map (fun i => i.properties.sheetId)

/-- Applying an echoed server snapshot to the cache, exactly as
`_makeSingleUpdateRequest` does on success: `_updateRawProperties`
replaces the cached document properties, then every echoed worksheet is
upserted by `_updateOrCreateSheet`. -/
def applyEcho (echo : EchoedSpreadsheet) (s : DocState) : DocState :=
  echo.sheets.foldl updateOrCreateSheet
    { s with rawProperties := some echo.properties }

/-- Parameters of one named operation inside a `:batchUpdate` envelope. -/
inductive UpdateParams where
  | updateSpreadsheetProperties (props : List (DocPropKey × String)) (fields : String)
  | deleteRange (sheetId startRowIndex endRowIndex : Nat) (shiftDimension : String)
  | otherOp (payload : String)
  deriving DecidableEq

/-- Mapped cell-load filter as sent on the wire by `loadCells`. -/
inductive MappedFilter where
  | rawString (s : String)
  | a1Range (s : String)
  | gridRange (sheetId : Nat)
  deriving DecidableEq

/-- The HTTP requests the modelled operations can issue. -/
inductive Request where
  | getSpreadsheet (includeGridData : Bool)
  | getSpreadsheetWithRanges (ranges : List MappedFilter)
  | getByDataFilter (dataFilters : List MappedFilter)
  | batchUpdate (requests : List (String × UpdateParams)) (includeSpreadsheetInResponse : Bool)
  | valuesUpdate (rowNumber : Nat) (valueInputOption : String) (values : List String)
  | export2 (url : String) (spreadsheetId : String) (format : String) (gid : Option Nat)
  | listPermissions
  | deletePermission (id : String)
  | createPermission (role : String) (ptype : String)
  | createSpreadsheet
  | driveDelete
  deriving DecidableEq

def notLoadedMsg : String :=
  "You must call `doc.loadInfo()` before accessing this property"

def setPropMsg : String :=
  "Do not update directly - use `updateProperties()`"

def rowDeletedMsg : String :=
  "This row has been deleted - call getRows again before making updates."

def invalidAuthMsg : String := "Invalid auth"

def privateSheetMsg : String :=
  "Sheet is private. Use authentication or make public. (see https://github.com/theoephraim/node-google-spreadsheet#a-note-on-authentication for details)"

def readOnlyFilterMsg : String :=
  "Only A1 ranges are supported when fetching cells with read-only access (using only an API key)"

def badFilterMsg : String :=
  "Each filter must be an A1 range string or a gridrange object"

def apiKeyCreateMsg : String :=
  "Cannot use api key only to create a new spreadsheet - it is only usable for read-only access of public docs"

/-- The freshly constructed `GoogleSpreadsheet` cache state: nothing
loaded, empty worksheet map. -/
def initialDoc : DocState := ⟨none, none, [], 0⟩

/-- `_ensureInfoLoaded`: raises `NotLoaded` unless `_rawProperties` is set. -/
def ensureInfoLoaded (s : DocState) : Except String Unit :=
  match s.rawProperties with
  | none => .error notLoadedMsg
  | some _ => .ok ()

/-- `_getProp`: `_ensureInfoLoaded` then read the property field. -/
def getProp (s : DocState) (param : DocPropKey) : Except String String :=
  match s.rawProperties with
  | none => .error notLoadedMsg
  | some p => .ok (propField p param)

/-- `_setProp`: every document property setter throws unconditionally. -/
def setProp (_s : DocState) (_param : DocPropKey) (_newVal : String) :
    Except String DocState :=
  .error setPropMsg

def titleProp (s : DocState) : Except String String := getProp s .title
def localeProp (s : DocState) : Except String String := getProp s .locale
def timeZoneProp (s : DocState) : Except String String := getProp s .timeZone
def autoRecalcProp (s : DocState) : Except String String := getProp s .autoRecalc
def defaultFormatProp (s : DocState) : Except String String := getProp s .defaultFormat
def spreadsheetThemeProp (s : DocState) : Except String String := getProp s .spreadsheetTheme
def iterativeCalcProp (s : DocState) : Except String String :=
  getProp s .iterativeCalculationSettings

/-- `get sheetCount` : `_ensureInfoLoaded` then the worksheet map size. -/
def sheetCount (s : DocState) : Except String Nat :=
  match s.rawProperties with
  | none => .error notLoadedMsg
  | some _ => .ok s.rawSheets.length

/-- `get sheetsById` : `_ensureInfoLoaded` then the worksheet map itself. -/
def sheetsById (s : DocState) : Except String (List (Nat × Worksheet)) :=
  match s.rawProperties with
  | none => .error notLoadedMsg
  | some _ => .ok s.rawSheets

/-- Stable insertion used to model `_.sortBy(sheets, index)`. -/
def insertByIndex (w : Worksheet) : List Worksheet → List Worksheet
  | [] => [w]
  | x :: t =>
      if w.rawProperties.index < x.rawProperties.index then w :: x :: t
      else x :: insertByIndex w t

/-- `get sheetsByIndex` : worksheets sorted by their `index` property. -/
def sheetsByIndex (s : DocState) : Except String (List Worksheet) :=
  match s.rawProperties with
  | none => .error notLoadedMsg
  | some _ => .ok ((s.rawSheets.map Prod.snd).foldr insertByIndex [])

/-- One step of `_.keyBy(sheets, title)`: later entries overwrite. -/
def keyByTitleStep (acc : List (String × Worksheet)) (w : Worksheet) :
    List (String × Worksheet) :=
  if (acc.map Prod.fst).contains w.rawProperties.title then
    acc.map (fun kv => if kv.1 = w.rawProperties.title then (kv.1, w) else kv)
  else acc ++ [(w.rawProperties.title, w)]

/-- `get sheetsByTitle` : worksheets keyed by their title. -/
def sheetsByTitle (s : DocState) : Except String (List (String × Worksheet)) :=
  match s.rawProperties with
  | none => .error notLoadedMsg
  | some _ => .ok ((s.rawSheets.map Prod.snd).foldl keyByTitleStep [])

/-- Body of the `GET /` response consumed by `loadInfo`. -/
structure LoadInfoResponse where
  spreadsheetUrl : String
  properties : SpreadsheetProperties
  sheets : List SheetInfo
  deriving DecidableEq

/-- `loadInfo`: issues a `GET /` (with `includeGridData` when
`includeCells` is set), then stores the returned url and properties and
upserts every returned worksheet. -/
def loadInfo (s : DocState) (includeCells : Bool) (resp : LoadInfoResponse) :
    DocState × Request :=
  (resp.sheets.foldl updateOrCreateSheet
    { s with
      spreadsheetUrl := some resp.spreadsheetUrl,
      rawProperties := some resp.properties },
   Request.getSpreadsheet includeCells)

/-- `resetLocalCache`: clears `_rawProperties` and `_rawSheets`; the
empty request list records that its body performs no remote call. -/
def resetLocalCache (s : DocState) : DocState × List Request :=
  ({ s with rawProperties := none, rawSheets := [] }, [])

/-- Modelled from the spec: `getFieldMask` lives in utils.ts, which is
not under src; per its call contract in `updateProperties`, the field
mask is the comma-joined list of provided property keys. -/
def getFieldMask (props : List (DocPropKey × String)) : String :=
  String.intercalate "," (props.map (fun kv => propKeyName kv.1))

/-- Body of a `:batchUpdate` response: the echoed spreadsheet plus the
per-operation reply payloads (opaque here). -/
structure BatchUpdateResponse where
  updatedSpreadsheet : EchoedSpreadsheet
  replies : List String
  deriving DecidableEq

/-- `_makeSingleUpdateRequest`: wraps one named operation in a batch
envelope of size one with `includeSpreadsheetInResponse`, applies the
echoed spreadsheet to the cache, and returns the first reply. -/
def makeSingleUpdateRequest (s : DocState) (requestType : String)
    (requestParams : UpdateParams) (resp : BatchUpdateResponse) :
    DocState × Request × Option String :=
  (applyEcho resp.updatedSpreadsheet s,
   Request.batchUpdate [(requestType, requestParams)] true,
   resp.replies.head?)

/-- `updateProperties`: routes through `_makeSingleUpdateRequest` with
the `updateSpreadsheetProperties` operation and a field mask. -/
def updateProperties (s : DocState) (props : List (DocPropKey × String))
    (resp : BatchUpdateResponse) : DocState × Request × Option String :=
  makeSingleUpdateRequest s "updateSpreadsheetProperties"
    (.updateSpreadsheetProperties props (getFieldMask props)) resp

/-! ### Transport error interceptor (`_handleAxiosErrors`) -/

/-- The structured `{code, message}` error a failure body may carry. -/
structure StructuredError where
  code : Nat
  message : String
  deriving DecidableEq

/-- Failure body: `error.response.data`; `error` is the optional
structured error field. -/
structure ResponseData where
  error : Option StructuredError
  deriving DecidableEq

/-- `error.response`: HTTP status plus optional (truthy) body. -/
structure AxiosErrorResponse where
  status : Nat
  data : Option ResponseData
  deriving DecidableEq

/-- The transport error object; `response` is absent when the request
never got a response. -/
structure AxiosError where
  message : String
  response : Option AxiosErrorResponse
  deriving DecidableEq

/-- The distinguished private-document error thrown for a bare 403
under API-key-only auth (a fresh `Error`, so it carries no response). -/
def privateSheetError : AxiosError := ⟨privateSheetMsg, none⟩

/-- `_handleAxiosErrors`: the response interceptor always re-throws; the
result is the error thrown.  If the failure has a (truthy) body, a
structured `{code, message}` error rewrites the message and anything
else is re-thrown raw; only a bodyless failure reaches the 403 /
API-key-only check. -/
def handleAxiosErrors (isApiKey : Bool) (e : AxiosError) : AxiosError :=
  match e.response with
  | some resp =>
      match resp.data with
      | some d =>
          match d.error with
          | none => e
          | some se =>
              { e with message :=
                  "Google API error - [" ++ toString se.code ++ "] " ++ se.message }
      | none =>
          if resp.status = 403 ∧ isApiKey then privateSheetError else e
  | none => e

/-! ### Credential resolver (`getAuthMode` / `getRequestAuthConfig`) -/

/-- A credential object, detected structurally: each field is `some _`
exactly when the corresponding distinguishing property or method exists
on the object.  For the two refreshable shapes the payload is the token
the refresh path would yield (`none` models a missing/null token). -/
structure Auth where
  apiKey : Option String
  authorizeToken : Option (Option String)
  getAccessTokenResult : Option (Option String)
  token : Option String
  deriving DecidableEq

inductive AUTH_MODES where
  | API_KEY | RAW_ACCESS_TOKEN | JWT | OAUTH
  deriving DecidableEq

/-- `getAuthMode`: structural shape detection, in source order. -/
def getAuthMode (auth : Auth) : Except String AUTH_MODES :=
  if auth.apiKey.isSome then .ok .API_KEY
  else if auth.authorizeToken.isSome then .ok .JWT
  else if auth.getAccessTokenResult.isSome then .ok .OAUTH
  else if auth.token.isSome then .ok .RAW_ACCESS_TOKEN
  else .error invalidAuthMsg

/-- The per-request authorization directive. -/
inductive AuthDirective where
  | queryParam (key : String) (value : String)
  | bearerHeader (token : String)
  deriving DecidableEq

/-- JS truthiness of the resolved token (`if (!authToken) throw`). -/
def jsTruthy : Option String → Bool
  | none => false
  | some s => !s.isEmpty

/-- `getRequestAuthConfig`: an API key becomes a `key=...` query param;
the three token shapes resolve a bearer token for the Authorization
header, failing with `Invalid auth` when no usable token results. -/
def getRequestAuthConfig (auth : Auth) : Except String AuthDirective :=
  match auth.apiKey with
  | some k => .ok (.queryParam "key" k)
  | none =>
      let authToken : Option String :=
        match auth.authorizeToken with
        | some t => t
        | none =>
            match auth.getAccessTokenResult with
            | some t => t
            | none => auth.token
      match authToken with
      | some t => if t.isEmpty then .error invalidAuthMsg else .ok (.bearerHeader t)
      | none => .error invalidAuthMsg

/-- Body of the document-creation response. -/
structure CreateResponse where
  spreadsheetId : String
  spreadsheetUrl : String
  properties : SpreadsheetProperties
  sheets : List SheetInfo
  deriving DecidableEq

/-- `GoogleSpreadsheet.createNewSpreadsheetDocument`: rejects API-key
credentials before resolving auth or issuing anything; otherwise
resolves auth, issues the creation request and returns a new document
cache seeded from the response. -/
def createNewSpreadsheetDocument (auth : Auth) (resp : CreateResponse) :
    Except String (DocState × List Request) :=
  if auth.apiKey.isSome then .error apiKeyCreateMsg
  else
    match getRequestAuthConfig auth with
    | .error e => .error e
    | .ok _ =>
        .ok (resp.sheets.foldl updateOrCreateSheet
              { spreadsheetUrl := some resp.spreadsheetUrl,
                rawProperties := some resp.properties,
                rawSheets := [], nextIdentity := 0 },
             [Request.createSpreadsheet])

/-! ### Export (`EXPORT_CONFIG` / `_downloadAs`) -/

/-- `EXPORT_CONFIG`: `none` = unsupported format, `some b` = supported
with `singleWorksheet` flag `b`. -/
def EXPORT_CONFIG : String → Option Bool
  | "html" => some false
  | "zip" => some false
  | "xlsx" => some false
  | "ods" => some false
  | "csv" => some true
  | "tsv" => some true
  | "pdf" => some true
  | _ => none

/-- JS truthiness of the optional worksheet id (`if (worksheetId)`):
`0` is falsy. -/
def widTruthy : Option Nat → Bool
  | none => false
  | some n => n != 0

/-- First-occurrence string replacement, as JS `String.replace` with a
string pattern. -/
def replaceFirst (s pat repl : String) : String :=
  match s.splitOn pat with
  | [] => s
  | [x] => x
  | x :: rest => x ++ repl ++ String.intercalate pat rest

/-- The tail of `_downloadAs` after validation: html is sent as zip,
the export url must be loaded, and the request carries `gid` only when
the worksheet id is truthy. -/
def downloadAsRest (s : DocState) (spreadsheetId : String) (fileType : String)
    (worksheetId : Option Nat) : Except String Request :=
  let fileType2 := if fileType = "html" then "zip" else fileType
  match s.spreadsheetUrl with
  | none => .error "Cannot export sheet that is not fully loaded"
  | some u =>
      .ok (Request.export2 (replaceFirst u "/edit" "/export") spreadsheetId fileType2
            (if widTruthy worksheetId then worksheetId else none))

/-- `_downloadAs`: validates the format and the worksheet-id /
format-scope combination, then proceeds as `downloadAsRest`. -/
def downloadAs (s : DocState) (spreadsheetId : String) (fileType : String)
    (worksheetId : Option Nat) : Except String Request :=
  match EXPORT_CONFIG fileType with
  | none => .error ("unsupported export fileType - " ++ fileType)
  | some single =>
      if single then
        if worksheetId = none then
          .error ("Must specify worksheetId when exporting as " ++ fileType)
        else
          downloadAsRest s spreadsheetId fileType worksheetId
      else
        if widTruthy worksheetId then
          .error ("Cannot specify worksheetId when exporting as " ++ fileType)
        else
          downloadAsRest s spreadsheetId fileType worksheetId

/-! ### Cell loading (`loadCells`) -/

/-- A caller-supplied cell filter: an A1 string, a (grid-range) object,
or anything else. -/
inductive DataFilter where
  | a1 (s : String)
  | grid (sheetId : Nat)
  | invalid
  deriving DecidableEq

/-- The `_.map` over filters in `loadCells`, which throws at the first
offending filter: strings pass through raw in read-only mode and are
wrapped as `{a1Range}` otherwise; objects are rejected in read-only
mode and wrapped as `{gridRange}` otherwise; anything else is
rejected. -/
def mapFilters (readOnlyMode : Bool) : List DataFilter → Except String (List MappedFilter)
  | [] => .ok []
  | .a1 str :: rest =>
      match mapFilters readOnlyMode rest with
      | .error e => .error e
      | .ok ms =>
          .ok ((if readOnlyMode then MappedFilter.rawString str
                else MappedFilter.a1Range str) :: ms)
  | .grid g :: rest =>
      if readOnlyMode then .error readOnlyFilterMsg
      else
        match mapFilters readOnlyMode rest with
        | .error e => .error e
        | .ok ms => .ok (MappedFilter.gridRange g :: ms)
  | .invalid :: _ => .error badFilterMsg

/-- Body of a cell-load response. -/
structure LoadCellsResponse where
  sheets : List SheetInfo
  deriving DecidableEq

/-- `loadCells`: read-only mode (API key) maps and sends the filters on
the plain `GET /` endpoint; any stronger credential uses the
`:getByDataFilter` POST; the returned per-worksheet grid data is
upserted into the cache. -/
def loadCells (auth : Auth) (s : DocState) (filters : List DataFilter)
    (resp : LoadCellsResponse) : Except String (DocState × Request) :=
  match getAuthMode auth with
  | .error e => .error e
  | .ok mode =>
      match mapFilters (decide (mode = AUTH_MODES.API_KEY)) filters with
      | .error e => .error e
      | .ok dataFilters =>
          if mode = AUTH_MODES.API_KEY then
            .ok (resp.sheets.foldl updateOrCreateSheet s,
                 Request.getSpreadsheetWithRanges dataFilters)
          else
            .ok (resp.sheets.foldl updateOrCreateSheet s,
                 Request.getByDataFilter dataFilters)

/-! ### Permissions (`setPublicAccessLevel`) -/

/-- One permission entry as listed from the drive surface. -/
structure Permission where
  id : String
  ptype : String
  role : String
  deriving DecidableEq

/-- `setPublicAccessLevel`, given the permissions the list call
returned: `role = none` models `false` (remove public access), which
deletes the first `anyone` permission if present and is a no-op
otherwise; `role = some r` creates/updates the `anyone` permission.
The result is the full request list the call issues (the leading
`listPermissions` is the lookup it always performs). -/
def setPublicAccessLevel (permissions : List Permission) (role : Option String) :
    List Request :=
  let existingPublicPermission := permissions.find? (fun p => decide (p.ptype = "anyone"))
  match role with
  | none =>
      match existingPublicPermission with
      | none => [Request.listPermissions]
      | some p => [Request.listPermissions, Request.deletePermission p.id]
  | some r =>
      [Request.listPermissions,
       Request.createPermission (if r.isEmpty then "viewer" else r) "anyone"]

/-! ### Row view (`GoogleSpreadsheetRow`) -/

/-- State of one `GoogleSpreadsheetRow`: the back-reference data needed
to build requests, the backing values and the `deleted` flag. -/
structure RowState where
  sheetId : Nat
  rowNumber : Nat
  rawData : List String
  deleted : Bool
  deriving DecidableEq

/-- The row constructor: `_deleted` starts out `false`. -/
def mkRow (sheetId rowNumber : Nat) (rawData : List String) : RowState :=
  ⟨sheetId, rowNumber, rawData, false⟩

/-- `GoogleSpreadsheetRow.save`: rejected with `RowDeleted` on a
deleted row (before anything is sent); otherwise issues one values
update over the row range and replaces the backing values with the
echoed updated values. -/
def rowSave (r : RowState) (raw : Bool) (respValues : List String) :
    Except String (RowState × List Request) :=
  if r.deleted then .error rowDeletedMsg
  else
    .ok ({ r with rawData := respValues },
         [Request.valuesUpdate r.rowNumber
            (if raw then "RAW" else "USER_ENTERED") r.rawData])

/-- `GoogleSpreadsheetRow.delete`: rejected with `RowDeleted` on a
deleted row (before anything is sent); otherwise issues one
single-update `deleteRange` request removing exactly this row and sets
the `deleted` flag. -/
def rowDelete (r : RowState) : Except String (RowState × List Request) :=
  if r.deleted then .error rowDeletedMsg
  else
    .ok ({ r with deleted := true },
         [Request.batchUpdate
            [("deleteRange", .deleteRange r.sheetId (r.rowNumber - 1) r.rowNumber "ROWS")]
            true])

/-! ### Lemmas about the worksheet map and the echo upsert -/

theorem lookupW_setW_ne (k k2 : Nat) (v : Worksheet) (m : List (Nat × Worksheet))
    (h : k2 ≠ k) : lookupW k2 (setW k v m) = lookupW k2 m := by
  induction m with
  | nil => rfl
  | cons hd t ih =>
    obtain ⟨k1, w⟩ := hd
    by_cases h1 : k1 = k
    · subst h1
      simp [setW, lookupW, Ne.symm h]
    · simp only [setW, if_neg h1, lookupW]
      by_cases h2 : k1 = k2
      · simp [h2]
      · simp [h2, ih]

theorem lookupW_setW_self (k : Nat) (v : Worksheet) (m : List (Nat × Worksheet))
    (h : (lookupW k m).isSome) : lookupW k (setW k v m) = some v := by
  induction m with
  | nil => simp [lookupW] at h
  | cons hd t ih =>
    obtain ⟨k1, w⟩ := hd
    by_cases h1 : k1 = k
    · simp [setW, lookupW, h1]
    · simp only [lookupW, if_neg h1] at h
      simp [setW, lookupW, if_neg h1, ih h]

theorem setW_self_eq (k : Nat) (m : List (Nat × Worksheet)) (v : Worksheet)
    (h : lookupW k m = some v) : setW k v m = m := by
  induction m with
  | nil => rfl
  | cons hd t ih =>
    obtain ⟨k1, w⟩ := hd
    by_cases h1 : k1 = k
    · simp only [lookupW, if_pos h1] at h
      obtain rfl := Option.some.inj h
      simp [setW, h1]
    · simp only [lookupW, if_neg h1] at h
      simp [setW, if_neg h1, ih h]

theorem lookupW_append_right (k : Nat) (m : List (Nat × Worksheet)) (v : Worksheet)
    (h : lookupW k m = none) : lookupW k (m ++ [(k, v)]) = some v := by
  induction m with
  | nil => simp [lookupW]
  | cons hd t ih =>
    obtain ⟨k1, w⟩ := hd
    by_cases h1 : k1 = k
    · simp [lookupW, if_pos h1] at h
    · simp only [lookupW, if_neg h1] at h
      simp [lookupW, if_neg h1, ih h]

theorem lookupW_append_ne (k k2 : Nat) (m : List (Nat × Worksheet)) (v : Worksheet)
    (h : k2 ≠ k) : lookupW k2 (m ++ [(k, v)]) = lookupW k2 m := by
  induction m with
  | nil => simp [lookupW, Ne.symm h]
  | cons hd t ih =>
    obtain ⟨k1, w⟩ := hd
    by_cases h1 : k1 = k2
    · simp [lookupW, h1]
    · simp [lookupW, h1, ih]

theorem setW_length (k : Nat) (v : Worksheet) (m : List (Nat × Worksheet)) :
    (setW k v m).length = m.length := by
  induction m with
  | nil => rfl
  | cons hd t ih =>
    obtain ⟨k1, w⟩ := hd
    by_cases h1 : k1 = k
    · simp [setW, h1]
    · simp [setW, h1, ih]

/-- `_updateOrCreateSheet` on an already-known sheetId merges in place. -/
theorem upsert_existing (s : DocState) (info : SheetInfo) (i : Nat)
    (pold : WorksheetProperties) (x : CellData)
    (h : lookupW info.properties.sheetId s.rawSheets = some (Worksheet.mk i pold x)) :
    updateOrCreateSheet s info
      = { s with rawSheets := (setW info.properties.sheetId
            (Worksheet.mk i info.properties (mergeData x info.data))
            s.rawSheets) } := by
  unfold updateOrCreateSheet
  rw [h]

/-- `_updateOrCreateSheet` on an unknown sheetId appends a fresh
worksheet object. -/
theorem upsert_absent (s : DocState) (info : SheetInfo)
    (h : lookupW info.properties.sheetId s.rawSheets = none) :
    updateOrCreateSheet s info
      = { s with
          rawSheets := (s.rawSheets ++
            [(info.properties.sheetId,
              Worksheet.mk s.nextIdentity info.properties (mergeData [] info.data))]),
          nextIdentity := s.nextIdentity + 1 } := by
  unfold updateOrCreateSheet
  rw [h]

theorem upsert_rawProperties (s : DocState) (info : SheetInfo) :
    (updateOrCreateSheet s info).rawProperties = s.rawProperties := by
  unfold updateOrCreateSheet
  cases lookupW info.properties.sheetId s.rawSheets <;> rfl

theorem foldl_upsert_rawProperties (l : List SheetInfo) (s : DocState) :
    (l.foldl updateOrCreateSheet s).rawProperties = s.rawProperties := by
  induction l generalizing s with
  | nil => rfl
  | cons a t ih => rw [List.foldl_cons, ih, upsert_rawProperties]

theorem upsert_lookup_ne (s : DocState) (info : SheetInfo) (k : Nat)
    (h : k ≠ info.properties.sheetId) :
    lookupW k (updateOrCreateSheet s info).rawSheets = lookupW k s.rawSheets := by
  cases hs : lookupW info.properties.sheetId s.rawSheets with
  | none => rw [upsert_absent s info hs]; exact lookupW_append_ne _ _ _ _ h
  | some w =>
    obtain ⟨i, pold, x⟩ := w
    rw [upsert_existing s info i pold x hs]
    exact lookupW_setW_ne _ _ _ _ h

theorem foldl_upsert_lookup_notmem (l : List SheetInfo) (s : DocState) (k : Nat)
    (h : k ∉ echoSheetIds l) :
    lookupW k (l.foldl updateOrCreateSheet s).rawSheets = lookupW k s.rawSheets := by
  induction l generalizing s with
  | nil => rfl
  | cons a t ih =>
    have hcons : echoSheetIds (a :: t) = a.properties.sheetId :: echoSheetIds t := by
      simp [echoSheetIds]
    rw [hcons, List.mem_cons] at h
    push_neg at h
    rw [List.foldl_cons, ih _ h.2, upsert_lookup_ne _ _ _ h.1]

theorem mergeData_idem (x d : CellData) :
    mergeData (mergeData x d) d = mergeData x d := by
  unfold mergeData
  rw [List.filter_append]
  have h1 : (x.filter fun kv => decide (kv.1 ∉ dataKeys d)).filter
      (fun kv => decide (kv.1 ∉ dataKeys d))
      = x.filter fun kv => decide (kv.1 ∉ dataKeys d) := by
    apply List.filter_eq_self.2
    intro a ha
    exact (List.mem_filter.1 ha).2
  have h2 : d.filter (fun kv => decide (kv.1 ∉ dataKeys d)) = [] := by
    apply List.filter_eq_nil_iff.2
    intro a ha
    simp only [decide_eq_true_eq, Decidable.not_not]
    exact List.mem_map_of_mem Prod.fst ha
  rw [h1, h2, List.append_nil]

/-- After an upsert, the upserted sheetId maps to a worksheet carrying
the echoed properties and a cell cache of merged form. -/
theorem upsert_lookup_self (s : DocState) (info : SheetInfo) :
    ∃ (i : Nat) (x : CellData),
      lookupW info.properties.sheetId (updateOrCreateSheet s info).rawSheets
        = some (Worksheet.mk i info.properties (mergeData x info.data)) := by
  cases hs : lookupW info.properties.sheetId s.rawSheets with
  | none =>
    refine ⟨s.nextIdentity, [], ?_⟩
    rw [upsert_absent s info hs]
    exact lookupW_append_right _ _ _ hs
  | some w =>
    obtain ⟨i, pold, x⟩ := w
    refine ⟨i, x, ?_⟩
    rw [upsert_existing s info i pold x hs]
    exact lookupW_setW_self _ _ _ (by rw [hs]; rfl)

/-- For distinct echoed sheetIds, re-upserting any echoed worksheet into
the state the full echo produced is a fixed point. -/
theorem upsert_fixed_of_mem (l : List SheetInfo) (s : DocState) (info : SheetInfo)
    (hmem : info ∈ l) (hnd : (echoSheetIds l).Nodup) :
    updateOrCreateSheet (l.foldl updateOrCreateSheet s) info
      = l.foldl updateOrCreateSheet s := by
  induction l generalizing s with
  | nil => cases hmem
  | cons a t ih =>
    have hcons : echoSheetIds (a :: t) = a.properties.sheetId :: echoSheetIds t := by
      simp [echoSheetIds]
    rw [hcons, List.nodup_cons] at hnd
    obtain ⟨ha, ht⟩ := hnd
    rcases List.mem_cons.1 hmem with rfl | hmemt
    · rw [List.foldl_cons]
      obtain ⟨i, x, hB⟩ := upsert_lookup_self s info
      have hA : lookupW info.properties.sheetId
          (t.foldl updateOrCreateSheet (updateOrCreateSheet s info)).rawSheets
          = some (Worksheet.mk i info.properties (mergeData x info.data)) :=
        (foldl_upsert_lookup_notmem t (updateOrCreateSheet s info) _ ha).trans hB
      rw [upsert_existing _ info i info.properties (mergeData x info.data) hA]
      rw [mergeData_idem, setW_self_eq _ _ _ hA]
    · rw [List.foldl_cons]
      exact ih (updateOrCreateSheet s a) hmemt ht

theorem foldl_fixed (l : List SheetInfo) (A : DocState)
    (h : ∀ info ∈ l, updateOrCreateSheet A info = A) :
    l.foldl updateOrCreateSheet A = A := by
  induction l with
  | nil => rfl
  | cons a t ih =>
    rw [List.foldl_cons, h a (List.mem_cons_self a t)]
    exact ih (fun info hi => h info (List.mem_cons_of_mem a hi))

theorem docstate_set_props_self (A : DocState) (p : Option SpreadsheetProperties)
    (h : A.rawProperties = p) : { A with rawProperties := p } = A := by
  cases A
  cases h
  rfl

/-- Applying the same echoed snapshot twice yields the same cache state
as applying it once (the echoed sheetIds of one server snapshot are
pairwise distinct). -/
theorem applyEcho_idem (echo : EchoedSpreadsheet) (s : DocState)
    (hnd : (echoSheetIds echo.sheets).Nodup) :
    applyEcho echo (applyEcho echo s) = applyEcho echo s := by
  have hA : (applyEcho echo s).rawProperties = some echo.properties := by
    show (echo.sheets.foldl updateOrCreateSheet _).rawProperties = _
    rw [foldl_upsert_rawProperties]
  show echo.sheets.foldl updateOrCreateSheet
      { applyEcho echo s with rawProperties := some echo.properties }
    = applyEcho echo s
  rw [docstate_set_props_self _ _ hA]
  exact foldl_fixed _ _
    (fun info hmem => upsert_fixed_of_mem echo.sheets _ info hmem hnd)

/-! ### Concrete sample values used by the witnesses -/

def sampleProps : SpreadsheetProperties :=
  ⟨"My Doc", "en_US", "Etc/GMT", "ON_CHANGE", "fmt", "theme", "iter"⟩

def sampleWsProps1 : WorksheetProperties := ⟨1, "Sheet1", 0⟩

def sampleWsProps2 : WorksheetProperties := ⟨2, "Sheet2", 1⟩

def sampleInfo1 : SheetInfo := ⟨sampleWsProps1, [((0, 0), "a")]⟩

def sampleInfo2 : SheetInfo := ⟨sampleWsProps2, []⟩

def sampleEcho : EchoedSpreadsheet := ⟨sampleProps, [sampleInfo1, sampleInfo2]⟩

def sampleDoc : DocState :=
  ⟨some "https://docs.google.com/spreadsheets/d/x/edit", some sampleProps,
   [(1, Worksheet.mk 7 sampleWsProps1 [((0, 0), "old"), ((1, 1), "z")])], 8⟩

/-! ### Claim theorems -/

/-- Claim C1: applying the same echoed server snapshot to the document
cache (replace cached document properties, upsert each echoed worksheet
by sheetId) twice yields the same cache state as applying it once — the
sheetIds of one echoed snapshot are pairwise distinct, being the keys
of the server-side worksheet collection — and upserting an echoed
worksheet whose sheetId is already in the worksheet map merges into the
existing entry in place, keeping the worksheet object identity and
creating a fresh worksheet object only for unknown sheetIds. -/
theorem c1_echo_upsert_idempotent :
    (∀ (echo : EchoedSpreadsheet) (s : DocState),
        (echoSheetIds echo.sheets).Nodup →
        applyEcho echo (applyEcho echo s) = applyEcho echo s)
    ∧ (∀ (s : DocState) (info : SheetInfo) (i : Nat) (pold : WorksheetProperties)
          (x : CellData),
        lookupW info.properties.sheetId s.rawSheets = some (Worksheet.mk i pold x) →
          lookupW info.properties.sheetId (updateOrCreateSheet s info).rawSheets
              = some (Worksheet.mk i info.properties (mergeData x info.data))
            ∧ (updateOrCreateSheet s info).nextIdentity = s.nextIdentity
            ∧ (updateOrCreateSheet s info).rawSheets.length = s.rawSheets.length)
    ∧ (∀ (s : DocState) (info : SheetInfo),
        lookupW info.properties.sheetId s.rawSheets = none →
          lookupW info.properties.sheetId (updateOrCreateSheet s info).rawSheets
              = some (Worksheet.mk s.nextIdentity info.properties (mergeData [] info.data))
            ∧ (updateOrCreateSheet s info).nextIdentity = s.nextIdentity + 1) := by
  refine ⟨applyEcho_idem, ?_, ?_⟩
  · intro s info i pold x h
    refine ⟨?_, ?_, ?_⟩
    · rw [upsert_existing s info i pold x h]
      exact lookupW_setW_self _ _ _ (by rw [h]; rfl)
    · rw [upsert_existing s info i pold x h]
    · rw [upsert_existing s info i pold x h]
      exact setW_length _ _ _
  · intro s info h
    refine ⟨?_, ?_⟩
    · rw [upsert_absent s info h]
      exact lookupW_append_right _ _ _ h
    · rw [upsert_absent s info h]

/-- Concrete instantiation of the C1 theorem. -/
theorem c1_witness :
    (applyEcho sampleEcho (applyEcho sampleEcho sampleDoc)
        = applyEcho sampleEcho sampleDoc)
    ∧ (lookupW sampleInfo1.properties.sheetId
          (updateOrCreateSheet sampleDoc sampleInfo1).rawSheets
          = some (Worksheet.mk 7 sampleInfo1.properties
              (mergeData [((0, 0), "old"), ((1, 1), "z")] sampleInfo1.data))
        ∧ (updateOrCreateSheet sampleDoc sampleInfo1).nextIdentity
            = sampleDoc.nextIdentity
        ∧ (updateOrCreateSheet sampleDoc sampleInfo1).rawSheets.length
            = sampleDoc.rawSheets.length)
    ∧ (lookupW sampleInfo2.properties.sheetId
          (updateOrCreateSheet sampleDoc sampleInfo2).rawSheets
          = some (Worksheet.mk sampleDoc.nextIdentity sampleInfo2.properties
              (mergeData [] sampleInfo2.data))
        ∧ (updateOrCreateSheet sampleDoc sampleInfo2).nextIdentity
            = sampleDoc.nextIdentity + 1) :=
  ⟨c1_echo_upsert_idempotent.1 sampleEcho sampleDoc (by decide),
   c1_echo_upsert_idempotent.2.1 sampleDoc sampleInfo1 7 sampleWsProps1
     [((0, 0), "old"), ((1, 1), "z")] (by decide),
   c1_echo_upsert_idempotent.2.2 sampleDoc sampleInfo2 (by decide)⟩

/-- All document property accessors and worksheet accessors raise the
`NotLoaded` error on this state. -/
def accessorsRaiseNotLoaded (s : DocState) : Prop :=
  titleProp s = .error notLoadedMsg ∧ localeProp s = .error notLoadedMsg
  ∧ timeZoneProp s = .error notLoadedMsg ∧ autoRecalcProp s = .error notLoadedMsg
  ∧ defaultFormatProp s = .error notLoadedMsg
  ∧ spreadsheetThemeProp s = .error notLoadedMsg
  ∧ iterativeCalcProp s = .error notLoadedMsg
  ∧ sheetCount s = .error notLoadedMsg
  ∧ sheetsById s = .error notLoadedMsg
  ∧ sheetsByIndex s = .error notLoadedMsg
  ∧ sheetsByTitle s = .error notLoadedMsg

theorem accessorsRaise_of_none (s : DocState) (h : s.rawProperties = none) :
    accessorsRaiseNotLoaded s := by
  refine ⟨?_, ?_, ?_, ?_, ?_, ?_, ?_, ?_, ?_, ?_, ?_⟩ <;>
    simp [titleProp, localeProp, timeZoneProp, autoRecalcProp, defaultFormatProp,
      spreadsheetThemeProp, iterativeCalcProp, getProp, sheetCount, sheetsById,
      sheetsByIndex, sheetsByTitle, h]

/-- Claim C2: before the first successful loadInfo — and again after
resetLocalCache, which performs no remote call — every document
property accessor and every worksheet accessor raises NotLoaded; after
a successful loadInfo they return the loaded values without raising. -/
theorem c2_accessors_notLoaded :
    accessorsRaiseNotLoaded initialDoc
    ∧ (∀ s : DocState, (resetLocalCache s).2 = []
        ∧ accessorsRaiseNotLoaded (resetLocalCache s).1)
    ∧ (∀ (s : DocState) (b : Bool) (resp : LoadInfoResponse),
        titleProp (loadInfo s b resp).1 = .ok resp.properties.title
        ∧ localeProp (loadInfo s b resp).1 = .ok resp.properties.locale
        ∧ timeZoneProp (loadInfo s b resp).1 = .ok resp.properties.timeZone
        ∧ autoRecalcProp (loadInfo s b resp).1 = .ok resp.properties.autoRecalc
        ∧ defaultFormatProp (loadInfo s b resp).1 = .ok resp.properties.defaultFormat
        ∧ spreadsheetThemeProp (loadInfo s b resp).1
            = .ok resp.properties.spreadsheetTheme
        ∧ iterativeCalcProp (loadInfo s b resp).1
            = .ok resp.properties.iterativeCalculationSettings
        ∧ (∃ n, sheetCount (loadInfo s b resp).1 = .ok n)
        ∧ (∃ v, sheetsById (loadInfo s b resp).1 = .ok v)
        ∧ (∃ v, sheetsByIndex (loadInfo s b resp).1 = .ok v)
        ∧ (∃ v, sheetsByTitle (loadInfo s b resp).1 = .ok v)) := by
  refine ⟨accessorsRaise_of_none _ rfl, ?_, ?_⟩
  · intro s
    exact ⟨rfl, accessorsRaise_of_none _ rfl⟩
  · intro s b resp
    have hp : (loadInfo s b resp).1.rawProperties = some resp.properties := by
      show (resp.sheets.foldl updateOrCreateSheet _).rawProperties = _
      rw [foldl_upsert_rawProperties]
    refine ⟨?_, ?_, ?_, ?_, ?_, ?_, ?_, ?_, ?_, ?_, ?_⟩ <;>
      simp [titleProp, localeProp, timeZoneProp, autoRecalcProp, defaultFormatProp,
        spreadsheetThemeProp, iterativeCalcProp, getProp, sheetCount, sheetsById,
        sheetsByIndex, sheetsByTitle, hp, propField]

/-- Claim C3: a Row starts with `deleted = false` and save/delete are
then permitted; a successful delete sets the flag; on a deleted row
both save and delete raise `RowDeleted` and — requests being emitted
only with a successful (`ok`) result in this model — issue no remote
request; save never changes the flag, so after a delete every
subsequent save/delete call keeps failing. -/
theorem c3_row_deleted_lifecycle :
    (∀ (sid n : Nat) (d : List String), (mkRow sid n d).deleted = false)
    ∧ (∀ (r : RowState) (raw : Bool) (resp : List String), r.deleted = false →
        (∃ r2 reqs, rowSave r raw resp = .ok (r2, reqs))
        ∧ (∃ r2 reqs, rowDelete r = .ok (r2, reqs)))
    ∧ (∀ (r r2 : RowState) (reqs : List Request),
        rowDelete r = .ok (r2, reqs) → r2.deleted = true)
    ∧ (∀ (r : RowState) (raw : Bool) (resp : List String), r.deleted = true →
        rowSave r raw resp = .error rowDeletedMsg
        ∧ rowDelete r = .error rowDeletedMsg)
    ∧ (∀ (r : RowState) (raw : Bool) (resp : List String) (r2 : RowState)
          (reqs : List Request),
        rowSave r raw resp = .ok (r2, reqs) → r2.deleted = r.deleted) := by
  refine ⟨fun _ _ _ => rfl, ?_, ?_, ?_, ?_⟩
  · intro r raw resp h
    refine ⟨?_, ?_⟩ <;> simp [rowSave, rowDelete, h]
  · intro r r2 reqs h
    unfold rowDelete at h
    by_cases hd : r.deleted
    · simp [hd] at h
    · simp [hd] at h
      rw [← h.1]
  · intro r raw resp h
    exact ⟨by simp [rowSave, h], by simp [rowDelete, h]⟩
  · intro r raw resp r2 reqs h
    unfold rowSave at h
    by_cases hd : r.deleted
    · simp [hd] at h
    · simp [hd] at h
      rw [← h.1]
      simp only [Bool.not_eq_true] at hd
      rw [hd]

/-- Concrete instantiation of the C3 theorem: create, delete, then both
mutation calls fail. -/
theorem c3_witness :
    (mkRow 4 2 ["a", "b"]).deleted = false
    ∧ ((∃ r2 reqs, rowSave (mkRow 4 2 ["a", "b"]) false ["c", "d"] = .ok (r2, reqs))
        ∧ (∃ r2 reqs, rowDelete (mkRow 4 2 ["a", "b"]) = .ok (r2, reqs)))
    ∧ (RowState.mk 4 2 ["a", "b"] true).deleted = true
    ∧ (rowSave (RowState.mk 4 2 ["a", "b"] true) false ["c"] = .error rowDeletedMsg
        ∧ rowDelete (RowState.mk 4 2 ["a", "b"] true) = .error rowDeletedMsg)
    ∧ (RowState.mk 4 2 ["c", "d"] false).deleted = (mkRow 4 2 ["a", "b"]).deleted :=
  ⟨c3_row_deleted_lifecycle.1 4 2 ["a", "b"],
   c3_row_deleted_lifecycle.2.1 (mkRow 4 2 ["a", "b"]) false ["c", "d"] (by decide),
   c3_row_deleted_lifecycle.2.2.1 (RowState.mk 4 2 ["a", "b"] false)
     (RowState.mk 4 2 ["a", "b"] true)
     [Request.batchUpdate [("deleteRange", .deleteRange 4 1 2 "ROWS")] true] rfl,
   c3_row_deleted_lifecycle.2.2.2.1 (RowState.mk 4 2 ["a", "b"] true) false ["c"]
     (by decide),
   c3_row_deleted_lifecycle.2.2.2.2 (mkRow 4 2 ["a", "b"]) false ["c", "d"]
     (RowState.mk 4 2 ["c", "d"] false)
     [Request.valuesUpdate 2 "USER_ENTERED" ["a", "b"]] rfl⟩

/-- The failure the C4/C5 counterexamples use: a 400 response whose
body carries a structured error. -/
def c4err : AxiosError :=
  ⟨"Request failed with status code 400", some ⟨400, some ⟨some ⟨400, "bad"⟩⟩⟩⟩

/-- Claim C4 counterexample: on a failure body carrying a structured
error the interceptor sets the message to "Google API error - [400]
bad", not the claimed "Service error - [400] bad". -/
theorem c4_counterexample :
    (handleAxiosErrors false c4err).message ≠ "Service error - [400] bad"
    ∧ (handleAxiosErrors false c4err).message = "Google API error - [400] bad" := by
  constructor <;> decide

/-- Claim C4 (amended): for every transport response whose failure body
carries a structured code/message error, the interceptor replaces the
raised error message with exactly "Google API error - [<code>]
<message>" and re-raises that same error object. -/
theorem c4_service_error_message (k : Bool) (msg : String) (st : Nat)
    (code : Nat) (m2 : String) :
    handleAxiosErrors k ⟨msg, some ⟨st, some ⟨some ⟨code, m2⟩⟩⟩⟩
      = ⟨"Google API error - [" ++ toString code ++ "] " ++ m2,
         some ⟨st, some ⟨some ⟨code, m2⟩⟩⟩⟩ := rfl

/-- The failure the C5 counterexample uses: a 403 response whose body
carries a structured error. -/
def c5err : AxiosError :=
  ⟨"Request failed with status code 403",
   some ⟨403, some ⟨some ⟨403, "The caller does not have permission"⟩⟩⟩⟩

/-- Claim C5 counterexample: a 403 failure under an API-key credential
does NOT raise the distinguished private-document error when the
failure body carries a structured error — the structured-error branch
wins and the 403 check is never reached. -/
theorem c5_counterexample :
    handleAxiosErrors true c5err ≠ privateSheetError
    ∧ (handleAxiosErrors true c5err).message
        = "Google API error - [403] The caller does not have permission" := by
  constructor <;> decide

/-- Claim C5 (amended): the distinguished private-document error is
raised exactly for a bodyless 403 failure while the credential is
API-key-only; every other failure that is not a structured-body error
propagates unchanged (no response at all, bodyless non-403, bodyless
403 under a stronger credential, or a body without a structured
error). -/
theorem c5_private_doc_403 :
    (∀ (msg : String), handleAxiosErrors true ⟨msg, some ⟨403, none⟩⟩ = privateSheetError)
    ∧ (∀ (k : Bool) (msg : String) (st : Nat), st ≠ 403 →
        handleAxiosErrors k ⟨msg, some ⟨st, none⟩⟩ = ⟨msg, some ⟨st, none⟩⟩)
    ∧ (∀ (msg : String) (st : Nat),
        handleAxiosErrors false ⟨msg, some ⟨st, none⟩⟩ = ⟨msg, some ⟨st, none⟩⟩)
    ∧ (∀ (k : Bool) (msg : String), handleAxiosErrors k ⟨msg, none⟩ = ⟨msg, none⟩)
    ∧ (∀ (k : Bool) (msg : String) (st : Nat),
        handleAxiosErrors k ⟨msg, some ⟨st, some ⟨none⟩⟩⟩
          = ⟨msg, some ⟨st, some ⟨none⟩⟩⟩) := by
  refine ⟨?_, ?_, ?_, fun _ _ => rfl, fun _ _ _ => rfl⟩
  · intro msg
    simp [handleAxiosErrors]
  · intro k msg st h
    simp [handleAxiosErrors, h]
  · intro msg st
    simp [handleAxiosErrors]

/-- Concrete instantiation of the amended C5 theorem. -/
theorem c5_witness :
    handleAxiosErrors true ⟨"m", some ⟨500, none⟩⟩ = ⟨"m", some ⟨500, none⟩⟩ :=
  c5_private_doc_403.2.1 true "m" 500 (by decide)

/-- A loaded-but-otherwise-empty document used by the export theorems. -/
def c6doc : DocState :=
  ⟨some "https://docs.google.com/spreadsheets/d/x/edit", none, [], 0⟩

/-- Claim C6 counterexample: the claim counts legacy-html among the
single-worksheet formats, but the code treats `html` as a
whole-document format — exporting as html with a worksheet id fails,
and without one it succeeds. -/
theorem c6_counterexample :
    downloadAs c6doc "x" "html" (some 5)
        = .error "Cannot specify worksheetId when exporting as html"
    ∧ ∃ req, downloadAs c6doc "x" "html" none = .ok req :=
  ⟨rfl, _, rfl⟩

/-- Claim C6 (amended): the three single-worksheet formats (csv, tsv,
pdf) fail with UnsupportedExportTarget when no worksheet id is given
and succeed (once the export url is loaded) with one; the
whole-document formats (html-as-zip, zip, xlsx, ods) fail when a
truthy (nonzero) worksheet id is given; an unknown format string always
fails. -/
theorem c6_export_targets :
    (∀ (ft : String) (s : DocState) (sid : String),
        ft = "csv" ∨ ft = "tsv" ∨ ft = "pdf" →
        downloadAs s sid ft none
          = .error ("Must specify worksheetId when exporting as " ++ ft))
    ∧ (∀ (ft : String) (s : DocState) (sid u : String) (w : Nat),
        ft = "csv" ∨ ft = "tsv" ∨ ft = "pdf" → s.spreadsheetUrl = some u →
        ∃ req, downloadAs s sid ft (some w) = .ok req)
    ∧ (∀ (ft : String) (s : DocState) (sid : String) (w : Nat),
        ft = "html" ∨ ft = "zip" ∨ ft = "xlsx" ∨ ft = "ods" → w ≠ 0 →
        downloadAs s sid ft (some w)
          = .error ("Cannot specify worksheetId when exporting as " ++ ft))
    ∧ (∀ (ft : String) (s : DocState) (sid : String) (w : Option Nat),
        EXPORT_CONFIG ft = none →
        downloadAs s sid ft w = .error ("unsupported export fileType - " ++ ft)) := by
  refine ⟨?_, ?_, ?_, ?_⟩
  · intro ft s sid hft
    rcases hft with rfl | rfl | rfl <;> rfl
  · intro ft s sid u w hft hu
    rcases hft with rfl | rfl | rfl <;>
      simp [downloadAs, EXPORT_CONFIG, downloadAsRest, hu]
  · intro ft s sid w hft hw
    rcases hft with rfl | rfl | rfl | rfl <;>
      simp [downloadAs, EXPORT_CONFIG, widTruthy, hw]
  · intro ft s sid w hft
    simp [downloadAs, hft]

/-- Concrete instantiation of the amended C6 theorem. -/
theorem c6_witness :
    downloadAs c6doc "x" "csv" none
        = .error ("Must specify worksheetId when exporting as " ++ "csv")
    ∧ (∃ req, downloadAs c6doc "x" "tsv" (some 3) = .ok req)
    ∧ downloadAs c6doc "x" "xlsx" (some 5)
        = .error ("Cannot specify worksheetId when exporting as " ++ "xlsx")
    ∧ downloadAs c6doc "x" "docx" none
        = .error ("unsupported export fileType - " ++ "docx") :=
  ⟨c6_export_targets.1 "csv" c6doc "x" (Or.inl rfl),
   c6_export_targets.2.1 "tsv" c6doc "x"
     "https://docs.google.com/spreadsheets/d/x/edit" 3 (Or.inr (Or.inl rfl)) rfl,
   c6_export_targets.2.2.1 "xlsx" c6doc "x" 5 (Or.inr (Or.inr (Or.inl rfl)))
     (by decide),
   c6_export_targets.2.2.2 "docx" c6doc "x" none rfl⟩

/-- Claim C7: resolving the per-request authorization yields exactly
one directive kind — a key=value query parameter for an API-key
credential, a Bearer Authorization header for the other shapes —
raising InvalidCredential when no shape matches or a refresh yields no
usable token; and an API-key credential never gains creation
capability: createNewSpreadsheetDocument under an API-key credential
fails with InvalidCredential before resolving auth or issuing any
request. -/
theorem c7_auth_directives :
    (∀ (a : Auth) (k : String), a.apiKey = some k →
        getRequestAuthConfig a = .ok (.queryParam "key" k))
    ∧ (∀ (a : Auth) (d : AuthDirective), getRequestAuthConfig a = .ok d →
        (a.apiKey.isSome ∧ ∃ k, d = .queryParam "key" k)
        ∨ (a.apiKey = none ∧ ∃ t, d = .bearerHeader t))
    ∧ (∀ a : Auth, a.apiKey = none → a.authorizeToken = none →
        a.getAccessTokenResult = none → a.token = none →
        getAuthMode a = .error invalidAuthMsg
        ∧ getRequestAuthConfig a = .error invalidAuthMsg)
    ∧ (∀ (a : Auth) (t : Option String), a.apiKey = none →
        a.authorizeToken = some t → jsTruthy t = false →
        getRequestAuthConfig a = .error invalidAuthMsg)
    ∧ (∀ (a : Auth) (t : Option String), a.apiKey = none →
        a.authorizeToken = none → a.getAccessTokenResult = some t →
        jsTruthy t = false → getRequestAuthConfig a = .error invalidAuthMsg)
    ∧ (∀ (a : Auth) (k : String) (resp : CreateResponse), a.apiKey = some k →
        createNewSpreadsheetDocument a resp = .error apiKeyCreateMsg) := by
  refine ⟨?_, ?_, ?_, ?_, ?_, ?_⟩
  · intro a k h
    simp [getRequestAuthConfig, h]
  · intro a d h
    obtain ⟨a1, a2, a3, a4⟩ := a
    cases a1 with
    | some k =>
      left
      refine ⟨rfl, k, ?_⟩
      simp [getRequestAuthConfig] at h
      exact h.symm
    | none =>
      right
      refine ⟨rfl, ?_⟩
      simp only [getRequestAuthConfig] at h
      split at h
      · split at h
        · cases h
        · exact ⟨_, (Except.ok.inj h).symm⟩
      · cases h
  · intro a h1 h2 h3 h4
    constructor
    · simp [getAuthMode, h1, h2, h3, h4]
    · simp [getRequestAuthConfig, h1, h2, h3, h4]
  · intro a t h1 h2 ht
    cases t with
    | none => simp [getRequestAuthConfig, h1, h2]
    | some s =>
      simp [jsTruthy] at ht
      simp [getRequestAuthConfig, h1, h2, ht]
  · intro a t h1 h2 h3 ht
    cases t with
    | none => simp [getRequestAuthConfig, h1, h2, h3]
    | some s =>
      simp [jsTruthy] at ht
      simp [getRequestAuthConfig, h1, h2, h3, ht]
  · intro a k resp h
    simp [createNewSpreadsheetDocument, h]

/-- Concrete instantiation of the C7 theorem across the credential
shapes. -/
theorem c7_witness :
    getRequestAuthConfig ⟨some "KEY", none, none, none⟩
        = .ok (.queryParam "key" "KEY")
    ∧ (((Auth.mk (some "KEY") none none none).apiKey.isSome
          ∧ ∃ k, AuthDirective.queryParam "key" "KEY" = .queryParam "key" k)
        ∨ ((Auth.mk (some "KEY") none none none).apiKey = none
          ∧ ∃ t, AuthDirective.queryParam "key" "KEY" = .bearerHeader t))
    ∧ (getAuthMode ⟨none, none, none, none⟩ = .error invalidAuthMsg
        ∧ getRequestAuthConfig ⟨none, none, none, none⟩ = .error invalidAuthMsg)
    ∧ getRequestAuthConfig ⟨none, some none, none, none⟩ = .error invalidAuthMsg
    ∧ getRequestAuthConfig ⟨none, none, some (some ""), none⟩ = .error invalidAuthMsg
    ∧ createNewSpreadsheetDocument ⟨some "KEY", none, none, none⟩
        ⟨"id", "url", sampleProps, []⟩ = .error apiKeyCreateMsg :=
  ⟨c7_auth_directives.1 ⟨some "KEY", none, none, none⟩ "KEY" rfl,
   c7_auth_directives.2.1 ⟨some "KEY", none, none, none⟩
     (.queryParam "key" "KEY") rfl,
   c7_auth_directives.2.2.1 ⟨none, none, none, none⟩ rfl rfl rfl rfl,
   c7_auth_directives.2.2.2.1 ⟨none, some none, none, none⟩ none rfl rfl rfl,
   c7_auth_directives.2.2.2.2.1 ⟨none, none, some (some ""), none⟩ (some "") rfl rfl
     rfl rfl,
   c7_auth_directives.2.2.2.2.2 ⟨some "KEY", none, none, none⟩ "KEY"
     ⟨"id", "url", sampleProps, []⟩ rfl⟩

/-! ### Lemmas about filter mapping in `loadCells` -/

theorem mapFilters_grid_error (filters : List DataFilter)
    (hval : ∀ f ∈ filters, f ≠ .invalid)
    (hg : ∃ g, DataFilter.grid g ∈ filters) :
    mapFilters true filters = .error readOnlyFilterMsg := by
  obtain ⟨g, hmem⟩ := hg
  induction filters with
  | nil => cases hmem
  | cons f rest ih =>
    cases f with
    | a1 str =>
      have hmem2 : DataFilter.grid g ∈ rest := by
        rcases List.mem_cons.1 hmem with h | h
        · cases h
        · exact h
      have := ih (fun f hf => hval f (List.mem_cons_of_mem _ hf)) hmem2
      simp [mapFilters, this]
    | grid g2 => simp [mapFilters]
    | invalid => exact absurd rfl (hval .invalid (List.mem_cons_self _ _))

theorem mapFilters_strings (ranges : List String) :
    mapFilters true (ranges.map .a1) = .ok (ranges.map .rawString) := by
  induction ranges with
  | nil => rfl
  | cons r rest ih => simp [mapFilters, ih]

theorem mapFilters_rw_ok (filters : List DataFilter)
    (hval : ∀ f ∈ filters, f ≠ .invalid) :
    ∃ ms, mapFilters false filters = .ok ms := by
  induction filters with
  | nil => exact ⟨[], rfl⟩
  | cons f rest ih =>
    obtain ⟨ms, hms⟩ := ih (fun f hf => hval f (List.mem_cons_of_mem _ hf))
    cases f with
    | a1 str => exact ⟨MappedFilter.a1Range str :: ms, by simp [mapFilters, hms]⟩
    | grid g => exact ⟨MappedFilter.gridRange g :: ms, by simp [mapFilters, hms]⟩
    | invalid => exact absurd rfl (hval .invalid (List.mem_cons_self _ _))

theorem mapFilters_invalid (ro : Bool) (filters : List DataFilter)
    (h : DataFilter.invalid ∈ filters) :
    ∃ msg, mapFilters ro filters = .error msg := by
  induction filters with
  | nil => cases h
  | cons f rest ih =>
    cases f with
    | a1 str =>
      have hmem : DataFilter.invalid ∈ rest := by
        rcases List.mem_cons.1 h with h2 | h2
        · cases h2
        · exact h2
      obtain ⟨msg, hmsg⟩ := ih hmem
      exact ⟨msg, by simp [mapFilters, hmsg]⟩
    | grid g =>
      cases ro with
      | true => exact ⟨readOnlyFilterMsg, by simp [mapFilters]⟩
      | false =>
        have hmem : DataFilter.invalid ∈ rest := by
          rcases List.mem_cons.1 h with h2 | h2
          · cases h2
          · exact h2
        obtain ⟨msg, hmsg⟩ := ih hmem
        exact ⟨msg, by simp [mapFilters, hmsg]⟩
    | invalid => exact ⟨badFilterMsg, by simp [mapFilters]⟩

theorem getAuthMode_apiKey (a : Auth) (k : String) (h : a.apiKey = some k) :
    getAuthMode a = .ok .API_KEY := by
  simp [getAuthMode, h]

/-- Claim C8: under an API-key-only credential, a filter list
containing a structural grid-range object fails with
UnsupportedFilterForCredential, while a list of only A1-range strings
succeeds via the parameterized GET strategy; under a stronger
credential valid filters of both kinds succeed via the
filter-capable POST strategy; and a filter that is neither a string
nor an object always fails. -/
theorem c8_loadCells_filters :
    (∀ (a : Auth) (k : String) (s : DocState) (filters : List DataFilter)
        (resp : LoadCellsResponse),
        a.apiKey = some k → (∀ f ∈ filters, f ≠ .invalid) →
        (∃ g, DataFilter.grid g ∈ filters) →
        loadCells a s filters resp = .error readOnlyFilterMsg)
    ∧ (∀ (a : Auth) (k : String) (s : DocState) (ranges : List String)
          (resp : LoadCellsResponse),
        a.apiKey = some k →
        loadCells a s (ranges.map .a1) resp
          = .ok (resp.sheets.foldl updateOrCreateSheet s,
                 .getSpreadsheetWithRanges (ranges.map .rawString)))
    ∧ (∀ (a : Auth) (mode : AUTH_MODES) (s : DocState) (filters : List DataFilter)
          (resp : LoadCellsResponse),
        getAuthMode a = .ok mode → mode ≠ .API_KEY →
        (∀ f ∈ filters, f ≠ .invalid) →
        ∃ ms, loadCells a s filters resp
          = .ok (resp.sheets.foldl updateOrCreateSheet s, .getByDataFilter ms))
    ∧ (∀ (a : Auth) (mode : AUTH_MODES) (s : DocState) (filters : List DataFilter)
          (resp : LoadCellsResponse),
        getAuthMode a = .ok mode → DataFilter.invalid ∈ filters →
        ∃ msg, loadCells a s filters resp = .error msg) := by
  refine ⟨?_, ?_, ?_, ?_⟩
  · intro a k s filters resp hk hval hg
    have hmode := getAuthMode_apiKey a k hk
    have hmap := mapFilters_grid_error filters hval hg
    simp [loadCells, hmode, hmap]
  · intro a k s ranges resp hk
    have hmode := getAuthMode_apiKey a k hk
    have hmap := mapFilters_strings ranges
    simp [loadCells, hmode, hmap]
  · intro a mode s filters resp hmode hne hval
    obtain ⟨ms, hms⟩ := mapFilters_rw_ok filters hval
    have hro : decide (mode = AUTH_MODES.API_KEY) = false := by
      simp [hne]
    refine ⟨ms, ?_⟩
    simp [loadCells, hmode, hro, hms, hne]
  · intro a mode s filters resp hmode hmem
    obtain ⟨msg, hmsg⟩ := mapFilters_invalid (decide (mode = AUTH_MODES.API_KEY))
      filters hmem
    exact ⟨msg, by simp [loadCells, hmode, hmsg]⟩

/-- Concrete instantiation of the C8 theorem: an API-key credential
rejects a structural filter, accepts A1 strings via GET; a raw-token
credential accepts both kinds via POST; an invalid filter always
fails. -/
theorem c8_witness :
    loadCells ⟨some "KEY", none, none, none⟩ initialDoc
        [.a1 "Sheet1!A1:B2", .grid 1] ⟨[]⟩ = .error readOnlyFilterMsg
    ∧ loadCells ⟨some "KEY", none, none, none⟩ initialDoc
        (["Sheet1!A1:B2"].map .a1) ⟨[]⟩
        = .ok (List.foldl updateOrCreateSheet initialDoc [],
               .getSpreadsheetWithRanges (["Sheet1!A1:B2"].map .rawString))
    ∧ (∃ ms, loadCells ⟨none, none, none, some "tok"⟩ initialDoc
        [.a1 "Sheet1!A1:B2", .grid 1] ⟨[]⟩
        = .ok (List.foldl updateOrCreateSheet initialDoc [], .getByDataFilter ms))
    ∧ (∃ msg, loadCells ⟨none, none, none, some "tok"⟩ initialDoc [.invalid] ⟨[]⟩
        = .error msg) :=
  ⟨c8_loadCells_filters.1 ⟨some "KEY", none, none, none⟩ "KEY" initialDoc
     [.a1 "Sheet1!A1:B2", .grid 1] ⟨[]⟩ rfl (by decide) ⟨1, by decide⟩,
   c8_loadCells_filters.2.1 ⟨some "KEY", none, none, none⟩ "KEY" initialDoc
     ["Sheet1!A1:B2"] ⟨[]⟩ rfl,
   c8_loadCells_filters.2.2.1 ⟨none, none, none, some "tok"⟩ .RAW_ACCESS_TOKEN
     initialDoc [.a1 "Sheet1!A1:B2", .grid 1] ⟨[]⟩ rfl (by decide) (by decide),
   c8_loadCells_filters.2.2.2 ⟨none, none, none, some "tok"⟩ .RAW_ACCESS_TOKEN
     initialDoc [.invalid] ⟨[]⟩ rfl (by decide)⟩

/-- Claim C9: setPublicAccessLevel(false) with no listed "anyone"
permission is a no-op that returns without error and issues no delete
request (only the permission-list lookup); with an "anyone" permission
present it issues exactly one delete request, for the id of that
permission. -/
theorem c9_public_access_false :
    (∀ permissions : List Permission, (∀ p ∈ permissions, p.ptype ≠ "anyone") →
        setPublicAccessLevel permissions none = [Request.listPermissions])
    ∧ (∀ (permissions : List Permission) (p : Permission),
        permissions.find? (fun q => decide (q.ptype = "anyone")) = some p →
        setPublicAccessLevel permissions none
          = [Request.listPermissions, Request.deletePermission p.id]) := by
  constructor
  · intro permissions h
    have hfind : permissions.find? (fun q => decide (q.ptype = "anyone")) = none := by
      apply List.find?_eq_none.2
      intro p hp
      simpa using h p hp
    simp [setPublicAccessLevel, hfind]
  · intro permissions p hfind
    simp [setPublicAccessLevel, hfind]

/-- Concrete instantiation of the C9 theorem. -/
theorem c9_witness :
    setPublicAccessLevel [⟨"u1", "user", "writer"⟩] none = [Request.listPermissions]
    ∧ setPublicAccessLevel
        [⟨"u1", "user", "writer"⟩, ⟨"anyoneWithLink", "anyone", "reader"⟩] none
        = [Request.listPermissions, Request.deletePermission "anyoneWithLink"] :=
  ⟨c9_public_access_false.1 [⟨"u1", "user", "writer"⟩] (by decide),
   c9_public_access_false.2
     [⟨"u1", "user", "writer"⟩, ⟨"anyoneWithLink", "anyone", "reader"⟩]
     ⟨"anyoneWithLink", "anyone", "reader"⟩ (by decide)⟩

/-- Claim C10: every document property setter throws unconditionally
(the error is the only outcome, so the cached properties are
unchanged); local property mutation goes through updateProperties,
which issues exactly one mutation request — a batch envelope of size
one with the echoed spreadsheet requested — and updates the cache only
by applying that echo. -/
theorem c10_setters_throw :
    (∀ (s : DocState) (param : DocPropKey) (v : String),
        setProp s param v = .error setPropMsg)
    ∧ (∀ (s : DocState) (props : List (DocPropKey × String))
          (resp : BatchUpdateResponse),
        (updateProperties s props resp).2.1
            = Request.batchUpdate
                [("updateSpreadsheetProperties",
                  UpdateParams.updateSpreadsheetProperties props (getFieldMask props))]
                true
        ∧ (updateProperties s props resp).1 = applyEcho resp.updatedSpreadsheet s) :=
  ⟨fun _ _ _ => rfl, fun _ _ _ => ⟨rfl, rfl⟩⟩

end GS
